import Mathlib

/-!
# Verification of the School Mini-Market POS backend

Shallow embedding of `src/main.py` and `src/schemas.py`.

Embedding conventions:
* Monetary values (`float` in the source) are embedded as rationals `ℚ`;
  Python's `round(x, 2)` becomes `round2` (round-half-up at 2 decimal
  places, one of the two policies the spec permits in §4.1/§9).
* Mongo `ObjectId` identities are embedded as `Nat`.  The
  `ObjectId(pid)` parse in the handlers is embedded by giving request
  fields the type `Option Nat`: `none` is a missing or malformed
  identity string (which the source turns into an HTTP 400).
* Mongo documents may lack fields that the source reads with
  `dict.get`, so those fields (`name`, `sku`, `price`, `stock`) are
  `Option`-valued on stored products; fields the source uses inside
  query filters (`_id`, `active`) are embedded as required.
* An `HTTPException` raised by a handler is an `Except.error`; since
  every raise in the source happens before any store write, an error
  result carries no store and no effect trace.
* Store writes are recorded as an ordered `Effect` trace, so that
  ordering claims (sale persisted before stock decrements) are statable.
-/

set_option autoImplicit false

namespace POS

/-- Python `round(x, 2)`: round to 2 decimal places.  The spec (§4.1)
allows round-half-to-even or round-half-up as the policy; we fix
round-half-up (Mathlib's `round`). -/
def round2 (x : ℚ) : ℚ := ((round (x * 100) : ℤ) : ℚ) / 100

/-- A product document in the `product` collection.  `name`, `sku`,
`price`, `stock` are read with `prod.get(...)` in `src/main.py`, hence
`Option`; `id` and `active` appear in `find_one` query filters. -/
structure StoredProduct where
  id : Nat
  name : Option String
  sku : Option String
  price : Option ℚ
  stock : Option Int
  active : Bool
deriving DecidableEq, Repr

/-- The pydantic `Product` model from `src/schemas.py` (creation payload). -/
structure ProductIn where
  name : String
  sku : String
  price : ℚ
  stock : Int := 0
  category : Option String := none
  barcode : Option String := none
  active : Bool := true
deriving DecidableEq, Repr

/-- The pydantic `SaleItem` model from `src/schemas.py`, as built in
`create_sale`: `name`/`sku` come from `prod.get` and may be absent. -/
structure SaleItem where
  product_id : Nat
  name : Option String
  sku : Option String
  price : ℚ
  quantity : Int
  subtotal : ℚ
deriving DecidableEq, Repr

/-- The pydantic `Sale` model from `src/schemas.py`. -/
structure Sale where
  items : List SaleItem
  total : ℚ
  paid : ℚ
  change : ℚ
  customer_name : Option String
  student_ref : Option String
  payment_method : String
deriving DecidableEq, Repr

/-- One element of `SaleRequest.items` (a raw `dict` in the source):
`product_id` is the parse result of `ObjectId(line.get("product_id"))`
(`none` = missing or malformed), `quantity` is
`line.get("quantity", 1)`. -/
structure SaleLine where
  product_id : Option Nat
  quantity : Option Int
deriving DecidableEq, Repr

/-- The pydantic `SaleRequest` model from `src/main.py`. -/
structure SaleRequest where
  items : List SaleLine
  paid : ℚ
  customer_name : Option String := none
  student_ref : Option String := none
  payment_method : String := "cash"
deriving DecidableEq, Repr

/-- The backing document store: the `product` and `sale` collections,
plus the identity counter used to assign fresh `_id`s. -/
structure Store where
  products : List StoredProduct
  sales : List Sale
  nextId : Nat
deriving DecidableEq, Repr

/-- The `HTTPException`s raised in `src/main.py`, by `detail`:
`invalidProductId` = 400 "Invalid product id", `notFound` = 404
"Product not found (or inactive)", `insufficientStock name` = 400
"Insufficient stock for {name}", `paymentInsufficient` = 400 "Paid
amount is less than total", `duplicateKey` = 400 "SKU already exists",
`configurationError` = 500 "Database not configured", `storageError` =
a failed store write (spec §7). -/
inductive Err where
  | invalidProductId
  | notFound
  | insufficientStock (name : Option String)
  | paymentInsufficient
  | duplicateKey
  | configurationError
  | storageError
deriving DecidableEq, Repr

/-- A single store write, in the order the source performs them. -/
inductive Effect where
  | insertSale (sale : Sale)
  | insertProduct (p : ProductIn)
  | incStock (oid : Nat) (delta : Int)
deriving DecidableEq, Repr

/-- The document `create_document("product", product)` would insert,
with its assigned identity. -/
def storedOfProductIn (i : Nat) (p : ProductIn) : StoredProduct :=
  { id := i, name := some p.name, sku := some p.sku, price := some p.price,
    stock := some p.stock, active := p.active }

/-- Mongo `update_one({"_id": oid}, {"$inc": {"stock": delta}})`:
update the first matching document; `$inc` on a missing field treats it
as 0 and creates it. -/
def incStockFirst (oid : Nat) (delta : Int) : List StoredProduct → List StoredProduct
  | [] => []
  | p :: ps =>
    if p.id = oid then { p with stock := some (p.stock.getD 0 + delta) } :: ps
    else p :: incStockFirst oid delta ps

/-- Apply one recorded store write. -/
def applyEffect (s : Store) : Effect → Store
  | .insertSale sale =>
      { s with sales := s.sales ++ [sale], nextId := s.nextId + 1 }
  | .insertProduct p =>
      { s with products := s.products ++ [storedOfProductIn s.nextId p],
               nextId := s.nextId + 1 }
  | .incStock oid d => { s with products := incStockFirst oid d s.products }

/-- Apply recorded store writes in trace order. -/
def applyEffects (s : Store) (effs : List Effect) : Store :=
  effs.foldl applyEffect s

/-- Mongo `db["product"].find_one({"_id": oid, "active": True})`. -/
def findActive (s : Store) (oid : Nat) : Option StoredProduct :=
  s.products.find? (fun p => p.id == oid && p.active)

/-- Mongo `db["product"].find_one({"_id": oid})` / the match test of
`update_one({"_id": oid}, ...)`. -/
def findById (products : List StoredProduct) (oid : Nat) : Option StoredProduct :=
  products.find? (fun p => p.id == oid)

/-- Modelled from the spec: `create_document` lives in the `database`
module, which is not under `src/`.  Per the spec it inserts the
document into the named collection and returns the new identity; when
the store handle is unset the handler has made no up-front
configuration check, the insertion is still attempted, and the store
operation itself fails (spec §7 classifies a failed store operation as
`StorageError`).  The attempt is recorded in the effect trace either
way. -/
def create_document_product (db : Option Store) (p : ProductIn) :
    List Effect × Except Err (Store × Nat) :=
  match db with
  | some s =>
      ([Effect.insertProduct p],
       Except.ok (applyEffect s (Effect.insertProduct p), s.nextId))
  | none => ([Effect.insertProduct p], Except.error Err.storageError)

/-- Modelled from the spec: persistence of the Sale via
`create_document("sale", sale)` (the `database` module is not under
`src/`) may fail; `persistOk` is the oracle for whether this store
insert succeeds.  On failure the spec (§4.2) prescribes `StorageError`
with no store mutation; on success the sale document is appended and
its new identity returned. -/
def create_document_sale (s : Store) (persistOk : Bool) (sale : Sale) :
    Except Err (Store × Nat) :=
  if persistOk then
    Except.ok (applyEffect s (Effect.insertSale sale), s.nextId)
  else Except.error Err.storageError

/-- `create_product` from `src/main.py` (lines 28–35): the SKU
uniqueness lookup is `db["product"].find({"sku": product.sku}) if db
else []` — skipped entirely when the store handle is unset — then the
document is inserted. -/
def create_product (db : Option Store) (product : ProductIn) :
    List Effect × Except Err (Store × Nat) :=
  let existing : List StoredProduct :=
    match db with
    | some s => s.products.filter (fun p => p.sku == some product.sku)
    | none => []
  if existing.isEmpty then create_document_product db product
  else ([], Except.error Err.duplicateKey)

/-- `update_stock` from `src/main.py` (lines 58–71).  `matched_count
== 0` iff no document has the identity; otherwise `$inc` updates the
first match and the subsequent `find_one` returns that updated
document, which is what the handler returns. -/
def update_stock (db : Option Store) (product_id : Option Nat) (delta : Int) :
    Except Err (List Effect × Store × StoredProduct) :=
  match db with
  | none => Except.error Err.configurationError
  | some s =>
    match product_id with
    | none => Except.error Err.invalidProductId
    | some oid =>
      match findById s.products oid with
      | none => Except.error Err.notFound
      | some p =>
          Except.ok ([Effect.incStock oid delta],
                     applyEffect s (Effect.incStock oid delta),
                     { p with stock := some (p.stock.getD 0 + delta) })

/-- The validation/build loop of `create_sale` (`src/main.py` lines
107–131), accumulating the `items` list and the running `total`. -/
def buildLoop (s : Store) :
    List SaleLine → List SaleItem → ℚ → Except Err (List SaleItem × ℚ)
  | [], items, total => Except.ok (items, total)
  | line :: rest, items, total =>
    match line.product_id with
    | none => Except.error Err.invalidProductId
    | some oid =>
      match findActive s oid with
      | none => Except.error Err.notFound
      | some prod =>
        let qty := line.quantity.getD 1
        if prod.stock.getD 0 < qty then
          Except.error (Err.insufficientStock prod.name)
        else
          let price := prod.price.getD 0
          let subtotal := round2 (price * (qty : ℚ))
          buildLoop s rest
            (items ++ [{ product_id := prod.id, name := prod.name,
                         sku := prod.sku, price := price, quantity := qty,
                         subtotal := subtotal }])
            (total + subtotal)

/-- The response body of `POST /api/sales`. -/
structure SaleResponse where
  sid : Nat
  total : ℚ
  paid : ℚ
  change : ℚ
deriving DecidableEq, Repr

/-- `create_sale` from `src/main.py` (lines 101–154): configuration
check, build loop, final rounding, payment check, sale persistence,
then one stock decrement per line.  On success it returns the ordered
effect trace, the resulting store, and the response body. -/
def create_sale (db : Option Store) (persistOk : Bool) (request : SaleRequest) :
    Except Err (List Effect × Store × SaleResponse) :=
  match db with
  | none => Except.error Err.configurationError
  | some s =>
    match buildLoop s request.items [] 0 with
    | Except.error e => Except.error e
    | Except.ok (items, rawTotal) =>
      let total := round2 rawTotal
      if request.paid < total then Except.error Err.paymentInsufficient
      else
        let change := round2 (request.paid - total)
        let sale : Sale :=
          { items := items, total := total, paid := request.paid,
            change := change, customer_name := request.customer_name,
            student_ref := request.student_ref,
            payment_method := request.payment_method }
        match create_document_sale s persistOk sale with
        | Except.error e => Except.error e
        | Except.ok (s1, sale_id) =>
          let deductions :=
            items.map (fun it => Effect.incStock it.product_id (-it.quantity))
          Except.ok (Effect.insertSale sale :: deductions,
                     applyEffects s1 deductions,
                     { sid := sale_id, total := total, paid := request.paid,
                       change := change })

/-- The Sale value `create_sale` builds once validation has passed. -/
def saleOf (req : SaleRequest) (items : List SaleItem) (rawTotal : ℚ) : Sale :=
  { items := items, total := round2 rawTotal, paid := req.paid,
    change := round2 (req.paid - round2 rawTotal),
    customer_name := req.customer_name, student_ref := req.student_ref,
    payment_method := req.payment_method }

/-- One request line passes all three validation steps of the build
loop: well-formed identity, active product found, sufficient stock. -/
def lineOk (s : Store) (line : SaleLine) : Bool :=
  match line.product_id with
  | none => false
  | some oid =>
    match findActive s oid with
    | none => false
    | some prod => ! decide (prod.stock.getD 0 < line.quantity.getD 1)

/-! Concrete fixtures used to evaluate the handlers at explicit inputs. -/

/-- A product priced at 1.004 (embedded exactly as 251/250): two units
separate the per-line-rounded total from the round-of-raw-sum total. -/
def gum : StoredProduct :=
  { id := 1, name := some "Gum", sku := some "G1", price := some (251/250),
    stock := some 10, active := true }

def gumStore : Store := { products := [gum], sales := [], nextId := 5 }

def gumReq : SaleRequest :=
  { items := [{ product_id := some 1, quantity := some 1 },
              { product_id := some 1, quantity := some 1 }], paid := 10 }

def gumItem : SaleItem :=
  { product_id := 1, name := some "Gum", sku := some "G1", price := 251/250,
    quantity := 1, subtotal := 1 }

def gumSale : Sale :=
  { items := [gumItem, gumItem], total := 2, paid := 10, change := 8,
    customer_name := none, student_ref := none, payment_method := "cash" }

/-- The spec §8 scenario product: price 2.50, stock 10. -/
def choc : StoredProduct :=
  { id := 1, name := some "Choc", sku := some "A1", price := some (5/2),
    stock := some 10, active := true }

def chocStore : Store := { products := [choc], sales := [], nextId := 7 }

def chocReq : SaleRequest :=
  { items := [{ product_id := some 1, quantity := some 3 }], paid := 10 }

def chocItem : SaleItem :=
  { product_id := 1, name := some "Choc", sku := some "A1", price := 5/2,
    quantity := 3, subtotal := 15/2 }

def chocSale : Sale :=
  { items := [chocItem], total := 15/2, paid := 10, change := 5/2,
    customer_name := none, student_ref := none, payment_method := "cash" }

def chocEffs : List Effect := [Effect.insertSale chocSale, Effect.incStock 1 (-3)]

def chocFinal : Store :=
  { products := [{ id := 1, name := some "Choc", sku := some "A1",
                   price := some (5/2), stock := some 7, active := true }],
    sales := [chocSale], nextId := 8 }

def chocResp : SaleResponse := { sid := 7, total := 15/2, paid := 10, change := 5/2 }

/-- The spec §8 scenario with stock 2 and a requested quantity of 3. -/
def soda : StoredProduct :=
  { id := 2, name := some "Soda", sku := some "B2", price := some (3/2),
    stock := some 2, active := true }

def sodaStore : Store := { products := [soda], sales := [], nextId := 3 }

def sodaReq : SaleRequest :=
  { items := [{ product_id := some 2, quantity := some 3 }], paid := 10 }

/-- An inactive product: present in the collection, excluded from sale. -/
def relic : StoredProduct :=
  { id := 3, name := some "Relic", sku := some "C3", price := some 1,
    stock := some 5, active := false }

def relicStore : Store := { products := [relic], sales := [], nextId := 4 }

def relicReq : SaleRequest :=
  { items := [{ product_id := some 3, quantity := some 1 }], paid := 10 }

/-- An active product document with no `stock` field at all. -/
def ghost : StoredProduct :=
  { id := 4, name := some "Ghost", sku := some "D4", price := some 1,
    stock := none, active := true }

def ghostStore : Store := { products := [ghost], sales := [], nextId := 2 }

def ghostReq : SaleRequest :=
  { items := [{ product_id := some 4, quantity := some 1 }], paid := 10 }

/-- A creation payload whose SKU collides with `choc`. -/
def dupIn : ProductIn := { name := "Choc Again", sku := "A1", price := 3 }

/-- A creation payload with a novel SKU. -/
def freshIn : ProductIn := { name := "Mints", sku := "Z9", price := 2 }

theorem buildLoop_nil (s : Store) (items : List SaleItem) (t : ℚ) :
    buildLoop s [] items t = Except.ok (items, t) := rfl

theorem buildLoop_cons_invalid (s : Store) (line : SaleLine)
    (rest : List SaleLine) (items : List SaleItem) (t : ℚ)
    (hpid : line.product_id = none) :
    buildLoop s (line :: rest) items t = Except.error Err.invalidProductId := by
  simp [buildLoop, hpid]

theorem buildLoop_cons_notFound (s : Store) (line : SaleLine)
    (rest : List SaleLine) (items : List SaleItem) (t : ℚ) (oid : Nat)
    (hpid : line.product_id = some oid) (hfind : findActive s oid = none) :
    buildLoop s (line :: rest) items t = Except.error Err.notFound := by
  simp [buildLoop, hpid, hfind]

theorem buildLoop_cons_noStock (s : Store) (line : SaleLine)
    (rest : List SaleLine) (items : List SaleItem) (t : ℚ) (oid : Nat)
    (prod : StoredProduct) (hpid : line.product_id = some oid)
    (hfind : findActive s oid = some prod)
    (hstock : prod.stock.getD 0 < line.quantity.getD 1) :
    buildLoop s (line :: rest) items t =
      Except.error (Err.insufficientStock prod.name) := by
  simp [buildLoop, hpid, hfind, hstock]

theorem buildLoop_cons_ok (s : Store) (line : SaleLine)
    (rest : List SaleLine) (items : List SaleItem) (t : ℚ) (oid : Nat)
    (prod : StoredProduct) (hpid : line.product_id = some oid)
    (hfind : findActive s oid = some prod)
    (hstock : ¬ prod.stock.getD 0 < line.quantity.getD 1) :
    buildLoop s (line :: rest) items t =
      buildLoop s rest
        (items ++ [{ product_id := prod.id, name := prod.name, sku := prod.sku,
                     price := prod.price.getD 0, quantity := line.quantity.getD 1,
                     subtotal := round2 (prod.price.getD 0 * (line.quantity.getD 1 : ℚ)) }])
        (t + round2 (prod.price.getD 0 * (line.quantity.getD 1 : ℚ))) := by
  simp [buildLoop, hpid, hfind, hstock]

/-- Skipping a fully validating segment of request lines: the build
loop on `pre ++ xs` reaches `xs` with some accumulated state. -/
theorem buildLoop_skip (s : Store) :
    ∀ (pre xs : List SaleLine), (∀ l ∈ pre, lineOk s l = true) →
      ∀ (items : List SaleItem) (t : ℚ),
        ∃ items' t', buildLoop s (pre ++ xs) items t = buildLoop s xs items' t' := by
  intro pre
  induction pre with
  | nil => exact fun xs _ items t => ⟨items, t, rfl⟩
  | cons l pre ih =>
    intro xs hok items t
    have hl : lineOk s l = true := hok l (List.mem_cons_self _ _)
    have hrest : ∀ l' ∈ pre, lineOk s l' = true :=
      fun l' h => hok l' (List.mem_cons_of_mem _ h)
    cases hpid : l.product_id with
    | none => simp [lineOk, hpid] at hl
    | some oid =>
      cases hfind : findActive s oid with
      | none => simp [lineOk, hpid, hfind] at hl
      | some prod =>
        have hstock : ¬ prod.stock.getD 0 < l.quantity.getD 1 := by
          simpa [lineOk, hpid, hfind] using hl
        rw [List.cons_append,
          buildLoop_cons_ok s l (pre ++ xs) items t oid prod hpid hfind hstock]
        exact ih xs hrest _ _

/-- Invariant of a successful build loop: the result extends the
accumulator, the total is the accumulated sum of the new subtotals,
and each new subtotal is the rounded product of its price and
quantity. -/
theorem buildLoop_ok_spec (s : Store) :
    ∀ (lines : List SaleLine) (items0 : List SaleItem) (t0 : ℚ)
      (items : List SaleItem) (t : ℚ),
      buildLoop s lines items0 t0 = Except.ok (items, t) →
      ∃ new, items = items0 ++ new ∧
        t = t0 + ((new.map SaleItem.subtotal).sum) ∧
        ∀ it ∈ new, it.subtotal = round2 (it.price * (it.quantity : ℚ)) := by
  intro lines
  induction lines with
  | nil =>
    intro items0 t0 items t h
    rw [buildLoop_nil] at h
    obtain ⟨h1, h2⟩ : items0 = items ∧ t0 = t := by
      simpa using h
    exact ⟨[], by simp [h1], by simp [h2], by simp⟩
  | cons line rest ih =>
    intro items0 t0 items t h
    cases hpid : line.product_id with
    | none => rw [buildLoop_cons_invalid s line rest items0 t0 hpid] at h; cases h
    | some oid =>
      cases hfind : findActive s oid with
      | none => rw [buildLoop_cons_notFound s line rest items0 t0 oid hpid hfind] at h; cases h
      | some prod =>
        by_cases hstock : prod.stock.getD 0 < line.quantity.getD 1
        · rw [buildLoop_cons_noStock s line rest items0 t0 oid prod hpid hfind hstock] at h
          cases h
        · rw [buildLoop_cons_ok s line rest items0 t0 oid prod hpid hfind hstock] at h
          obtain ⟨new', h1, h2, h3⟩ := ih _ _ _ _ h
          refine ⟨{ product_id := prod.id, name := prod.name, sku := prod.sku,
                    price := prod.price.getD 0, quantity := line.quantity.getD 1,
                    subtotal := round2 (prod.price.getD 0 * (line.quantity.getD 1 : ℚ)) }
                  :: new', ?_, ?_, ?_⟩
          · simpa using h1
          · rw [h2, List.map_cons, List.sum_cons]; ring
          · intro it hit
            rcases List.mem_cons.mp hit with hit | hit
            · subst hit; rfl
            · exact h3 it hit

/-- A build-loop failure is the handler's failure. -/
theorem create_sale_build_error (s : Store) (ok : Bool) (req : SaleRequest)
    (e : Err) (h : buildLoop s req.items [] 0 = Except.error e) :
    create_sale (some s) ok req = Except.error e := by
  simp [create_sale, h]

/-- Inversion of a successful `create_sale`: the build loop succeeded,
payment sufficed, the sale document was inserted first and one stock
decrement per item followed. -/
theorem create_sale_ok_spec (s : Store) (ok : Bool) (req : SaleRequest)
    (effs : List Effect) (s' : Store) (resp : SaleResponse)
    (h : create_sale (some s) ok req = Except.ok (effs, s', resp)) :
    ∃ items rawTotal,
      buildLoop s req.items [] 0 = Except.ok (items, rawTotal) ∧
      ok = true ∧
      ¬ req.paid < round2 rawTotal ∧
      resp = { sid := s.nextId, total := round2 rawTotal, paid := req.paid,
               change := round2 (req.paid - round2 rawTotal) } ∧
      effs = Effect.insertSale (saleOf req items rawTotal) ::
             items.map (fun it => Effect.incStock it.product_id (-it.quantity)) ∧
      s' = applyEffects (applyEffect s (Effect.insertSale (saleOf req items rawTotal)))
             (items.map (fun it => Effect.incStock it.product_id (-it.quantity))) := by
  cases hb : buildLoop s req.items [] 0 with
  | error e => simp [create_sale, hb] at h
  | ok pair =>
    obtain ⟨items, rawTotal⟩ := pair
    simp only [create_sale, hb] at h
    by_cases hpay : req.paid < round2 rawTotal
    · rw [if_pos hpay] at h; cases h
    · rw [if_neg hpay] at h
      cases hok : ok with
      | false => subst hok; simp [create_document_sale] at h
      | true =>
        subst hok
        simp only [create_document_sale, if_true] at h
        obtain ⟨h1, h2, h3⟩ : _ ∧ _ ∧ _ := by
          simpa using h
        exact ⟨items, rawTotal, rfl, rfl, hpay, h3.symm, h1.symm, h2.symm⟩

/-- Applying only stock decrements never touches the `sale` collection. -/
theorem applyEffects_incStock_sales :
    ∀ (effs : List Effect) (s : Store),
      (∀ e ∈ effs, ∃ oid d, e = Effect.incStock oid d) →
      (applyEffects s effs).sales = s.sales := by
  intro effs
  induction effs with
  | nil => intro s _; rfl
  | cons e effs ih =>
    intro s h
    obtain ⟨oid, d, rfl⟩ := h e (List.mem_cons_self _ _)
    have hrest : ∀ e' ∈ effs, ∃ oid d, e' = Effect.incStock oid d :=
      fun e' he' => h e' (List.mem_cons_of_mem _ he')
    calc (applyEffects s (Effect.incStock oid d :: effs)).sales
        = (applyEffects (applyEffect s (Effect.incStock oid d)) effs).sales := rfl
      _ = (applyEffect s (Effect.incStock oid d)).sales := ih _ hrest
      _ = s.sales := rfl

/-- `update_one` + `find_one`: updating the first document matching an
identity and looking it up again returns the updated document. -/
theorem incStockFirst_findById (oid : Nat) (d : Int) :
    ∀ (ps : List StoredProduct) (p : StoredProduct),
      findById ps oid = some p →
      findById (incStockFirst oid d ps) oid =
        some { p with stock := some (p.stock.getD 0 + d) } := by
  intro ps
  induction ps with
  | nil => intro p h; simp [findById] at h
  | cons q ps ih =>
    intro p h
    by_cases hq : q.id = oid
    · rw [findById, List.find?_cons_of_pos _ (by simp [hq])] at h
      obtain rfl : q = p := by simpa using h
      rw [incStockFirst, if_pos hq, findById,
        List.find?_cons_of_pos _ (by simp [hq])]
    · rw [findById, List.find?_cons_of_neg _ (by simp [hq])] at h
      rw [incStockFirst, if_neg hq, findById,
        List.find?_cons_of_neg _ (by simp [hq])]
      exact ih p h

/-- Documents with a different identity survive the `$inc` update
untouched. -/
theorem incStockFirst_mem (oid : Nat) (d : Int) :
    ∀ (ps : List StoredProduct) (q : StoredProduct), q ∈ ps → q.id ≠ oid →
      q ∈ incStockFirst oid d ps := by
  intro ps
  induction ps with
  | nil => intro q h; cases h
  | cons r ps ih =>
    intro q hq hne
    rcases List.mem_cons.mp hq with rfl | hq
    · rw [incStockFirst, if_neg hne]
      exact List.mem_cons_self _ _
    · by_cases hr : r.id = oid
      · rw [incStockFirst, if_pos hr]
        exact List.mem_cons_of_mem _ hq
      · rw [incStockFirst, if_neg hr]
        exact List.mem_cons_of_mem _ (ih q hq hne)

/-- `find_one({"_id": oid, "active": True})` returns nothing exactly
when every document with that identity is inactive (in particular when
there is none). -/
theorem findActive_eq_none_iff (s : Store) (oid : Nat) :
    findActive s oid = none ↔ ∀ p ∈ s.products, p.id = oid → p.active = false := by
  rw [findActive, List.find?_eq_none]
  constructor
  · intro h p hp hid
    have := h p hp
    simp [hid] at this
    exact this
  · intro h p hp
    by_cases hid : p.id = oid
    · simp [hid, h p hp hid]
    · simp [hid]

/-- A first failing line whose product exists and is active but lacks
stock aborts the whole request with `InsufficientStock`. -/
theorem create_sale_stock_fail (s : Store) (ok : Bool) (pre rest : List SaleLine)
    (bad : SaleLine) (req : SaleRequest) (hitems : req.items = pre ++ bad :: rest)
    (hpre : ∀ l ∈ pre, lineOk s l = true) (oid : Nat) (prod : StoredProduct)
    (hpid : bad.product_id = some oid) (hfind : findActive s oid = some prod)
    (hstock : prod.stock.getD 0 < bad.quantity.getD 1) :
    create_sale (some s) ok req = Except.error (Err.insufficientStock prod.name) := by
  obtain ⟨items', t', hskip⟩ := buildLoop_skip s pre (bad :: rest) hpre [] 0
  apply create_sale_build_error
  rw [hitems, hskip]
  exact buildLoop_cons_noStock s bad rest items' t' oid prod hpid hfind hstock

/-- Evaluation of the spec §8 scenario: price 2.50, stock 10, quantity
3, paid 10.00 — the sale succeeds with total 7.50 and change 2.50 and
stock is decremented to 7. -/
theorem chocRun :
    create_sale (some chocStore) true chocReq =
      Except.ok (chocEffs, chocFinal, chocResp) := by
  norm_num [create_sale, buildLoop, findActive, chocStore, chocReq, choc,
    chocEffs, chocFinal, chocResp, chocSale, chocItem, create_document_sale,
    applyEffects, applyEffect, incStockFirst, round2, round_eq]

/-- Claim C1, counterexample to the claim as stated: at price 1.004
(embedded exactly as 251/250) with two one-unit lines, the sale
succeeds with returned and persisted total 2, while
`round(sum(price_i * qty_i), 2)` is 2.01 — the code rounds each line's
subtotal first, so the claimed equality fails. -/
theorem claim1_total_formula_counterexample :
    create_sale (some gumStore) true gumReq =
      Except.ok ([Effect.insertSale gumSale, Effect.incStock 1 (-1),
                  Effect.incStock 1 (-1)],
        { products := [{ id := 1, name := some "Gum", sku := some "G1",
                         price := some (251/250), stock := some 8, active := true }],
          sales := [gumSale], nextId := 6 },
        { sid := 5, total := 2, paid := 10, change := 8 }) ∧
    round2 ((251/250 : ℚ) * ((1 : Int) : ℚ) + (251/250 : ℚ) * ((1 : Int) : ℚ)) =
      201/100 ∧
    (2 : ℚ) ≠ 201/100 := by
  refine ⟨?_, ?_, by norm_num⟩
  · norm_num [create_sale, buildLoop, findActive, gumStore, gumReq, gum, gumSale,
      gumItem, create_document_sale, applyEffects, applyEffect, incStockFirst,
      round2, round_eq]
  · rw [round2]; norm_num [round_eq]

/-- Claim C1, amended: for every successful `create_sale`, the
returned total equals the persisted sale's total, which is the sum of
the per-line subtotals rounded to 2 places at the end, each subtotal
being `round(price * quantity, 2)`. -/
theorem claim1_total_amended (s : Store) (ok : Bool) (req : SaleRequest)
    (effs : List Effect) (s' : Store) (resp : SaleResponse)
    (h : create_sale (some s) ok req = Except.ok (effs, s', resp)) :
    ∃ sale deds, effs = Effect.insertSale sale :: deds ∧
      sale.total = resp.total ∧
      resp.total = round2 ((sale.items.map SaleItem.subtotal).sum) ∧
      (∀ it ∈ sale.items, it.subtotal = round2 (it.price * (it.quantity : ℚ))) ∧
      s'.sales = s.sales ++ [sale] := by
  obtain ⟨items, rawTotal, hb, hok, hpay, hresp, heffs, hs'⟩ :=
    create_sale_ok_spec s ok req effs s' resp h
  obtain ⟨new, hnew, hsum, hsub⟩ := buildLoop_ok_spec s req.items [] 0 items rawTotal hb
  rw [List.nil_append] at hnew
  rw [zero_add] at hsum
  subst hnew
  have hmem : ∀ e ∈ items.map (fun it => Effect.incStock it.product_id (-it.quantity)),
      ∃ oid d, e = Effect.incStock oid d := by
    intro e he
    obtain ⟨it, _, rfl⟩ := List.mem_map.mp he
    exact ⟨_, _, rfl⟩
  refine ⟨saleOf req items rawTotal, _, heffs, ?_, ?_, hsub, ?_⟩
  · subst hresp; rfl
  · subst hresp
    show round2 rawTotal = round2 ((items.map SaleItem.subtotal).sum)
    rw [hsum]
  · rw [hs', applyEffects_incStock_sales _ _ hmem]
    rfl

/-- Claim C1 witness: the spec §8 scenario instantiates the amended
total invariant. -/
theorem claim1_total_amended_witness :
    ∃ sale deds, chocEffs = Effect.insertSale sale :: deds ∧
      sale.total = chocResp.total ∧
      chocResp.total = round2 ((sale.items.map SaleItem.subtotal).sum) ∧
      (∀ it ∈ sale.items, it.subtotal = round2 (it.price * (it.quantity : ℚ))) ∧
      chocFinal.sales = chocStore.sales ++ [sale] :=
  claim1_total_amended chocStore true chocReq chocEffs chocFinal chocResp chocRun

/-- Claim C2: a sale request whose first failing line requests more
than the referenced product's current stock fails with
`InsufficientStock` naming the product; the build aborts at that line,
and — errors in this embedding carrying no effect trace and no store,
since every raise in the source precedes every write — no sale
document is persisted and no stock is mutated for the entire request. -/
theorem claim2_insufficient_stock_aborts (s : Store) (ok : Bool)
    (pre rest : List SaleLine) (bad : SaleLine) (req : SaleRequest)
    (hitems : req.items = pre ++ bad :: rest)
    (hpre : ∀ l ∈ pre, lineOk s l = true) (oid : Nat) (prod : StoredProduct)
    (hpid : bad.product_id = some oid) (hfind : findActive s oid = some prod)
    (hstock : prod.stock.getD 0 < bad.quantity.getD 1) :
    create_sale (some s) ok req = Except.error (Err.insufficientStock prod.name) :=
  create_sale_stock_fail s ok pre rest bad req hitems hpre oid prod hpid hfind hstock

/-- Claim C2 witness: the spec §8 scenario with stock 2 and quantity 3. -/
theorem claim2_witness :
    create_sale (some sodaStore) true sodaReq =
      Except.error (Err.insufficientStock (some "Soda")) :=
  claim2_insufficient_stock_aborts sodaStore true [] []
    { product_id := some 2, quantity := some 3 } sodaReq rfl (by simp) 2 soda
    rfl rfl (by decide)

/-- Claim C3: in every successful Sale Commit the sale document is the
first store write, before any stock decrement (the effect trace starts
with the insert and the rest are `$inc` updates applied to the store
that already holds the sale); and on the same validated request, if
persisting the sale fails, the call fails with `StorageError` and no
stock is modified. -/
theorem claim3_sale_persisted_first (s : Store) (req : SaleRequest)
    (effs : List Effect) (s' : Store) (resp : SaleResponse)
    (h : create_sale (some s) true req = Except.ok (effs, s', resp)) :
    (∃ sale deds, effs = Effect.insertSale sale :: deds ∧
        (∀ e ∈ deds, ∃ oid d, e = Effect.incStock oid d) ∧
        s' = applyEffects (applyEffect s (Effect.insertSale sale)) deds) ∧
    create_sale (some s) false req = Except.error Err.storageError := by
  obtain ⟨items, rawTotal, hb, _, hpay, hresp, heffs, hs'⟩ :=
    create_sale_ok_spec s true req effs s' resp h
  constructor
  · refine ⟨saleOf req items rawTotal, _, heffs, ?_, hs'⟩
    intro e he
    obtain ⟨it, _, rfl⟩ := List.mem_map.mp he
    exact ⟨_, _, rfl⟩
  · simp only [create_sale, hb]
    rw [if_neg hpay]
    simp [create_document_sale]

/-- Claim C3 witness: the spec §8 scenario instantiates the commit
ordering and the persistence-failure semantics. -/
theorem claim3_witness :
    (∃ sale deds, chocEffs = Effect.insertSale sale :: deds ∧
        (∀ e ∈ deds, ∃ oid d, e = Effect.incStock oid d) ∧
        chocFinal = applyEffects (applyEffect chocStore (Effect.insertSale sale)) deds) ∧
    create_sale (some chocStore) false chocReq = Except.error Err.storageError :=
  claim3_sale_persisted_first chocStore chocReq chocEffs chocFinal chocResp chocRun

/-- Claim C4: on success the change equals `round(paid - total, 2)`,
`paid ≥ total`, and the paid amount is echoed back; when all lines
validate but `paid < total` the request fails with
`PaymentInsufficient` before anything is persisted or mutated. -/
theorem claim4_change_and_payment (s : Store) (ok : Bool) (req : SaleRequest) :
    (∀ effs s' resp, create_sale (some s) ok req = Except.ok (effs, s', resp) →
        resp.change = round2 (req.paid - resp.total) ∧ resp.total ≤ req.paid ∧
        resp.paid = req.paid) ∧
    (∀ items rawTotal, buildLoop s req.items [] 0 = Except.ok (items, rawTotal) →
        req.paid < round2 rawTotal →
        create_sale (some s) ok req = Except.error Err.paymentInsufficient) := by
  constructor
  · intro effs s' resp h
    obtain ⟨items, rawTotal, hb, _, hpay, hresp, _, _⟩ :=
      create_sale_ok_spec s ok req effs s' resp h
    subst hresp
    exact ⟨rfl, not_lt.mp hpay, rfl⟩
  · intro items rawTotal hb hlt
    simp only [create_sale, hb]
    rw [if_pos hlt]

/-- Claim C4 witness: the spec §8 scenario has change 2.50 =
round(10.00 − 7.50, 2) with total ≤ paid. -/
theorem claim4_witness :
    chocResp.change = round2 (chocReq.paid - chocResp.total) ∧
    chocResp.total ≤ chocReq.paid ∧ chocResp.paid = chocReq.paid :=
  (claim4_change_and_payment chocStore true chocReq).1 chocEffs chocFinal
    chocResp chocRun

/-- Claim C5: a line with a well-formed identity every matching
document of which is inactive — in particular one matched by no
document at all — fails with `NotFound` (absent and inactive are
indistinguishable), and no sale document is persisted. -/
theorem claim5_missing_or_inactive (s : Store) (ok : Bool)
    (pre rest : List SaleLine) (bad : SaleLine) (req : SaleRequest)
    (hitems : req.items = pre ++ bad :: rest)
    (hpre : ∀ l ∈ pre, lineOk s l = true) (oid : Nat)
    (hpid : bad.product_id = some oid)
    (hfind : ∀ p ∈ s.products, p.id = oid → p.active = false) :
    create_sale (some s) ok req = Except.error Err.notFound := by
  obtain ⟨items', t', hskip⟩ := buildLoop_skip s pre (bad :: rest) hpre [] 0
  apply create_sale_build_error
  rw [hitems, hskip]
  exact buildLoop_cons_notFound s bad rest items' t' oid hpid
    ((findActive_eq_none_iff s oid).mpr hfind)

/-- Claim C5 witness: a sale against the inactive product fails with
`NotFound`. -/
theorem claim5_witness :
    create_sale (some relicStore) true relicReq = Except.error Err.notFound :=
  claim5_missing_or_inactive relicStore true [] []
    { product_id := some 3, quantity := some 1 } relicReq rfl (by simp) 3
    rfl (by decide)

/-- Claim C6: the stock adjustment endpoint increments the matched
product's stock by exactly `delta` in a single store update — with no
non-negativity check, any integer delta included — returning the
updated document, leaving every other product untouched; it fails with
`NotFound` exactly when no document matches the identity. -/
theorem claim6_stock_adjustment (s : Store) (oid : Nat) (delta : Int) :
    (∀ p, findById s.products oid = some p →
        update_stock (some s) (some oid) delta =
          Except.ok ([Effect.incStock oid delta],
            { s with products := incStockFirst oid delta s.products },
            { p with stock := some (p.stock.getD 0 + delta) }) ∧
        findById (incStockFirst oid delta s.products) oid =
          some { p with stock := some (p.stock.getD 0 + delta) } ∧
        (∀ q ∈ s.products, q.id ≠ oid → q ∈ incStockFirst oid delta s.products)) ∧
    (findById s.products oid = none →
        update_stock (some s) (some oid) delta = Except.error Err.notFound) := by
  constructor
  · intro p hp
    refine ⟨?_, incStockFirst_findById oid delta s.products p hp,
            fun q hq hne => incStockFirst_mem oid delta s.products q hq hne⟩
    simp [update_stock, hp, applyEffect]
  · intro hnone
    simp [update_stock, hnone]

/-- Claim C6 witness: delta −15 against stock 10 is applied without a
non-negativity check, leaving stock −5. -/
theorem claim6_witness :
    (update_stock (some chocStore) (some 1) (-15) =
       Except.ok ([Effect.incStock 1 (-15)],
         { chocStore with products := incStockFirst 1 (-15) chocStore.products },
         { choc with stock := some (choc.stock.getD 0 + -15) }) ∧
     findById (incStockFirst 1 (-15) chocStore.products) 1 =
       some { choc with stock := some (choc.stock.getD 0 + -15) } ∧
     (∀ q ∈ chocStore.products, q.id ≠ 1 → q ∈ incStockFirst 1 (-15) chocStore.products)) ∧
    (choc.stock.getD 0 + -15 : Int) = -5 :=
  ⟨(claim6_stock_adjustment chocStore 1 (-15)).1 choc rfl, by decide⟩

/-- Claim C7: creating a product whose SKU matches any existing
document (the lookup has no active filter, so active or inactive
alike) fails with `DuplicateKey` before any insert; a novel SKU is
inserted and the new identity returned. -/
theorem claim7_sku_uniqueness (s : Store) (product : ProductIn) :
    ((∃ p, p ∈ s.products ∧ p.sku = some product.sku) →
        create_product (some s) product = ([], Except.error Err.duplicateKey)) ∧
    ((∀ p ∈ s.products, p.sku ≠ some product.sku) →
        create_product (some s) product =
          ([Effect.insertProduct product],
           Except.ok ({ s with
               products := s.products ++ [storedOfProductIn s.nextId product],
               nextId := s.nextId + 1 }, s.nextId))) := by
  constructor
  · rintro ⟨p, hmem, hsku⟩
    have hne : s.products.filter (fun p => p.sku == some product.sku) ≠ [] :=
      List.ne_nil_of_mem (List.mem_filter.mpr ⟨hmem, by simp [hsku]⟩)
    have hempty : (s.products.filter (fun p => p.sku == some product.sku)).isEmpty
        = false := by
      cases hl : s.products.filter (fun p => p.sku == some product.sku) with
      | nil => exact absurd hl hne
      | cons a l => rfl
    simp [create_product, hempty]
  · intro hall
    have hnil : s.products.filter (fun p => p.sku == some product.sku) = [] :=
      List.filter_eq_nil_iff.mpr (fun a ha => by simp [hall a ha])
    simp [create_product, hnil, create_document_product, applyEffect]

/-- Claim C7 witness: SKU "A1" collides with the existing product and
is rejected; SKU "Z9" is novel and inserted with the next identity. -/
theorem claim7_witness :
    create_product (some chocStore) dupIn = ([], Except.error Err.duplicateKey) ∧
    create_product (some chocStore) freshIn =
      ([Effect.insertProduct freshIn],
       Except.ok ({ chocStore with
           products := chocStore.products ++
             [storedOfProductIn chocStore.nextId freshIn],
           nextId := chocStore.nextId + 1 }, chocStore.nextId)) :=
  ⟨(claim7_sku_uniqueness chocStore dupIn).1 ⟨choc, by simp [chocStore], rfl⟩,
   (claim7_sku_uniqueness chocStore freshIn).2 (by decide)⟩

/-- Claim C8: a sale request with an empty items list and nonnegative
paid amount succeeds: it persists a sale with no items, total 0 and
change `round(paid, 2)`, and mutates no product's stock (the resulting
store keeps `products` unchanged). -/
theorem claim8_empty_sale (s : Store) (paid : ℚ) (cn sr : Option String)
    (pm : String) (h : 0 ≤ paid) :
    create_sale (some s) true
      { items := [], paid := paid, customer_name := cn, student_ref := sr,
        payment_method := pm } =
      Except.ok ([Effect.insertSale
          { items := [], total := 0, paid := paid, change := round2 paid,
            customer_name := cn, student_ref := sr, payment_method := pm }],
        { s with
            sales := s.sales ++
              [{ items := [], total := 0, paid := paid, change := round2 paid,
                 customer_name := cn, student_ref := sr, payment_method := pm }],
            nextId := s.nextId + 1 },
        { sid := s.nextId, total := 0, paid := paid, change := round2 paid }) := by
  have h0 : round2 0 = 0 := by rw [round2]; norm_num
  have hlt : ¬ paid < round2 0 := by rw [h0]; exact not_lt.mpr h
  simp [create_sale, buildLoop, create_document_sale, applyEffects, applyEffect,
    hlt, h0, h]

/-- Claim C8 witness: an empty sale with paid 5 succeeds with total 0
and change `round(5, 2)`. -/
theorem claim8_witness :
    (0 : ℚ) ≤ 5 ∧
    create_sale (some chocStore) true
      { items := [], paid := 5, customer_name := none, student_ref := none,
        payment_method := "cash" } =
      Except.ok ([Effect.insertSale
          { items := [], total := 0, paid := 5, change := round2 5,
            customer_name := none, student_ref := none, payment_method := "cash" }],
        { chocStore with
            sales := chocStore.sales ++
              [{ items := [], total := 0, paid := 5, change := round2 5,
                 customer_name := none, student_ref := none,
                 payment_method := "cash" }],
            nextId := chocStore.nextId + 1 },
        { sid := chocStore.nextId, total := 0, paid := 5, change := round2 5 }) :=
  ⟨by norm_num, claim8_empty_sale chocStore 5 none none "cash" (by norm_num)⟩

/-- Claim C9: with the store handle unset, `create_product` skips the
SKU-uniqueness lookup entirely (the duplicate branch is unreachable)
and still attempts the document insert — the attempt shows in the
effect trace, and the modelled store insert then fails as a storage
failure, not as the up-front `ConfigurationError` — while
`create_sale` and `update_stock` fail up front with
`ConfigurationError` (HTTP 500). -/
theorem claim9_unset_store (product : ProductIn) (ok : Bool) (req : SaleRequest)
    (pid : Option Nat) (delta : Int) :
    create_product none product =
      ([Effect.insertProduct product], Except.error Err.storageError) ∧
    create_sale none ok req = Except.error Err.configurationError ∧
    update_stock none pid delta = Except.error Err.configurationError :=
  ⟨rfl, rfl, rfl⟩

/-- Claim C10: a line referencing an existing active product document
with no `stock` field is treated as stock 0 by `prod.get("stock", 0)`,
so any requested quantity ≥ 1 fails with `InsufficientStock`. -/
theorem claim10_missing_stock_field (s : Store) (ok : Bool)
    (pre rest : List SaleLine) (bad : SaleLine) (req : SaleRequest)
    (hitems : req.items = pre ++ bad :: rest)
    (hpre : ∀ l ∈ pre, lineOk s l = true) (oid : Nat) (prod : StoredProduct)
    (hpid : bad.product_id = some oid) (hfind : findActive s oid = some prod)
    (hstock : prod.stock = none) (hqty : 1 ≤ bad.quantity.getD 1) :
    create_sale (some s) ok req = Except.error (Err.insufficientStock prod.name) :=
  create_sale_stock_fail s ok pre rest bad req hitems hpre oid prod hpid hfind
    (by rw [hstock]; exact lt_of_lt_of_le Int.zero_lt_one hqty)

/-- Claim C10 witness: one unit requested against the stock-field-less
product fails with `InsufficientStock`. -/
theorem claim10_witness :
    create_sale (some ghostStore) true ghostReq =
      Except.error (Err.insufficientStock (some "Ghost")) :=
  claim10_missing_stock_field ghostStore true [] []
    { product_id := some 4, quantity := some 1 } ghostReq rfl (by simp) 4 ghost
    rfl rfl rfl (by decide)

end POS
